import Mathlib

/-!
Shallow embedding of the Windows Server 2012 iSCSI volume driver
(`cinder/volume/drivers/windows/windows.py` and
`cinder/volume/drivers/windows/windows_common.py`).

The WMI object store (`//./root/wmi` and `//./root/cimv2`) is modelled as an
explicit state: lists of portal, host (target), disk, snapshot and
identification-method objects plus the set of backing-file paths.  A WMI query
such as `WT_Disk(Description=name)` becomes a `List.filter`, and Python's
`[0]` on the result becomes `index0`, which raises `PyErr.indexError` on an
empty list exactly as Python does.  External effects that the driver only
observes (the qemu-img probe of a file, the outcome of a WMI method call, the
image-service upload) are supplied as environment records.
-/

deriving instance DecidableEq for Except

namespace Windows

/-- Python exceptions that the driver code can raise or observe. -/
inductive PyErr where
  | indexError
  | valueError
  | comError (excepinfo2 : String)
  | imageUnacceptable (image_id : String) (reason : String)
  | volumeBackendAPIException (data : String)
deriving DecidableEq

/-- `xs[0]` in Python: the head of a query result, `IndexError` when empty. -/
def index0 : List α → Except PyErr α
  | [] => .error .indexError
  | a :: _ => .ok a

/-- Remove the first element satisfying `p` (deleting the object that `[0]`
of a WMI query returned). -/
def removeFirst (p : α → Bool) : List α → List α
  | [] => []
  | a :: as => if p a then as else a :: removeFirst p as

/-- Update the first element satisfying `p` (mutating the object that `[0]`
of a WMI query returned, then `put()`). -/
def mapFirst (p : α → Bool) (f : α → α) : List α → List α
  | [] => []
  | a :: as => if p a then f a :: as else a :: mapFirst p f as

/-- `pat` is a prefix of `l`. -/
def hasPre : List Char → List Char → Bool
  | _, [] => true
  | [], _ :: _ => false
  | c :: cs, d :: ds => c == d && hasPre cs ds

/-- `pat` occurs as a contiguous sublist of `l`. -/
def containsSubL (l pat : List Char) : Bool :=
  hasPre l pat ||
    match l with
    | [] => false
    | _ :: rest => containsSubL rest pat

/-- Python `s.find(pat) != -1`: `pat` occurs as a substring of `s`. -/
def containsSub (s pat : String) : Bool :=
  containsSubL s.data pat.data

/-- Worker for `pySplit`: `acc` holds the current word reversed. -/
def splitWsAux : List Char → List Char → List String
  | [], acc => if acc == ([] : List Char) then [] else [String.mk acc.reverse]
  | c :: cs, acc =>
    if c == ' ' then
      if acc == ([] : List Char) then splitWsAux cs []
      else String.mk acc.reverse :: splitWsAux cs []
    else splitWsAux cs (c :: acc)

/-- Python `str.split()` with no separator: split on runs of spaces, dropping
empty pieces. -/
def pySplit (s : String) : List String := splitWsAux s.data []

/-- Python truthiness of an optional string (`if auth:`): `None` and the
empty string are falsy. -/
def pyTruthy : Option String → Bool
  | none => false
  | some s => s != ""

/-- Last character of a path is a Windows path separator (or a drive colon). -/
def lastIsSep (l : List Char) : Bool :=
  match l.getLast? with
  | some c => c == '\\' || c == '/' || c == ':'
  | none => false

/-- `os.path.join(a, b)` on Windows for a relative second component. -/
def pyPathJoin (a b : String) : String :=
  if a.data == ([] : List Char) then b
  else if lastIsSep a.data then a ++ b
  else a ++ "\\" ++ b

/-- Orchestrator volume record. -/
structure Volume where
  name : String
  id : String
  size : Int
  provider_location : String
  provider_auth : Option String
deriving DecidableEq

/-- Orchestrator connector record. -/
structure Connector where
  initiator : String
deriving DecidableEq

/-- Orchestrator snapshot record. -/
structure Snapshot where
  name : String
  volume_name : String
deriving DecidableEq

/-- WMI `WT_Portal` object (singleton in practice). -/
structure WTPortal where
  address : String
  port : Nat
  listen : Bool
deriving DecidableEq

/-- WMI `WT_Host` object: an iSCSI target with its attached disk handles. -/
structure WTHost where
  hostName : String
  targetIQN : String
  disks : List Nat
deriving DecidableEq

/-- WMI `WT_Disk` object: a virtual disk, addressed by its description. -/
structure WTDisk where
  wtd : Nat
  description : String
  devicePath : String
deriving DecidableEq

/-- WMI `WT_Snapshot` object. -/
structure WTSnapshot where
  id : Nat
  description : String
  wtd : Nat
deriving DecidableEq

/-- WMI `WT_IDMethod` object: an identification-method entry binding an
initiator value to the target named `hostName`. -/
structure WTIDMethod where
  hostName : String
  method : Nat
  value : String
deriving DecidableEq

/-- State of the WMI object store seen through both connections.  `files` is
the set of `CIM_DataFile` paths; `nextSnapshotId` is the fresh internal id the
management interface hands out on `WT_Snapshot.Create`. -/
structure WmiState where
  portals : List WTPortal
  hosts : List WTHost
  disks : List WTDisk
  snapshots : List WTSnapshot
  idMethods : List WTIDMethod
  files : List String
  nextSnapshotId : Nat
deriving DecidableEq

/-- The mapping built by `get_host_information` (the `properties` dict). -/
structure HostProps where
  target_discovered : Bool
  target_portal : String
  target_iqn : String
  target_lun : Nat
  volume_id : String
  auth : Option (String × String × String)
deriving DecidableEq

/-- `WindowsCommon.get_host_information`: reads the singleton portal and the
target, builds the `properties` dict — and then falls off the end of the
function, so Python returns `None`; the built dict is never returned. -/
def get_host_information (st : WmiState) (volume : Volume) (target_name : String) :
    Except PyErr (Option HostProps) := do
  let wt_portal ← index0 st.portals
  let host ← index0 (st.hosts.filter (fun h => h.hostName == target_name))
  let base : HostProps :=
    { target_discovered := false
      target_portal := wt_portal.address ++ ":" ++ toString wt_portal.port
      target_iqn := host.targetIQN
      target_lun := 0
      volume_id := volume.id
      auth := none }
  if pyTruthy volume.provider_auth then
    match pySplit (volume.provider_auth.getD "") with
    | [auth_method, auth_username, auth_secret] =>
      let _properties := { base with auth := some (auth_method, auth_username, auth_secret) }
      pure none
    | _ => .error .valueError
  else
    pure none

/-- `WindowsCommon.associate_initiator_with_iscsi_target(initiator_name,
target_name)`: creates a `WT_IDMethod` entry with `HostName := target_name`,
`Method := 4`, `Value := initiator_name`. -/
def associate_initiator_with_iscsi_target (st : WmiState)
    (initiator_name target_name : String) : WmiState :=
  let wt_idmethod : WTIDMethod :=
    { hostName := target_name, method := 4, value := initiator_name }
  { st with idMethods := st.idMethods ++ [wt_idmethod] }

/-- `WindowsCommon.delete_iscsi_target(initiator_name, target_name)`: looks up
`WT_IDMethod(HostName=target_name, Method=4, Value=initiator_name)[0]` and
deletes it; `[0]` on an empty result raises `IndexError`. -/
def delete_iscsi_target (st : WmiState) (initiator_name target_name : String) :
    Except PyErr WmiState := do
  let p := fun (m : WTIDMethod) =>
    m.hostName == target_name && m.method == 4 && m.value == initiator_name
  let _wt_idmethod ← index0 (st.idMethods.filter p)
  pure { st with idMethods := removeFirst p st.idMethods }

/-- `WindowsCommon.delete_volume`: `WT_Disk(Description=vol_name)[0]` is
deleted (`IndexError` when missing), then the backing file is deleted only
when the `CIM_DataFile` query finds it. -/
def delete_volume (st : WmiState) (vol_name vhd_path : String) :
    Except PyErr WmiState := do
  let _wt_disk ← index0 (st.disks.filter (fun d => d.description == vol_name))
  let st1 := { st with disks := removeFirst (fun d => d.description == vol_name) st.disks }
  let vhdfiles := st1.files.filter (fun f => f == vhd_path)
  if vhdfiles.length > 0 then
    pure { st1 with files := removeFirst (fun f => f == vhd_path) st1.files }
  else
    pure st1

/-- Model of the management interface's `WT_Snapshot.Create(WTD=disk_id)`
call (external to the driver): it creates a snapshot object with a fresh
internal id and an empty description and returns that id in `out[0]`. -/
def wtSnapshotCreate (st : WmiState) (disk_id : Nat) : WmiState × Nat :=
  let out0 := st.nextSnapshotId
  ({ st with
      snapshots := st.snapshots ++ [{ id := out0, description := "", wtd := disk_id }]
      nextSnapshotId := out0 + 1 },
   out0)

/-- `WindowsCommon.create_snapshot`: look up the source disk by description,
call snapshot-create on its handle, re-read the new snapshot by the returned
id and set its description to the snapshot name (`put()`). -/
def create_snapshot (st : WmiState) (vol_name snapshot_name : String) :
    Except PyErr WmiState := do
  let wt_disk ← index0 (st.disks.filter (fun d => d.description == vol_name))
  let disk_id := wt_disk.wtd
  let (st1, out0) := wtSnapshotCreate st disk_id
  let _wt_snapshot_created ← index0 (st1.snapshots.filter (fun s => s.id == out0))
  pure { st1 with
    snapshots := mapFirst (fun s => s.id == out0)
      (fun s => { s with description := snapshot_name }) st1.snapshots }

/-- `WindowsCommon.delete_snapshot`: `WT_Snapshot(Description=name)[0]` is
deleted; `IndexError` when no snapshot carries that description. -/
def delete_snapshot (st : WmiState) (snapshot_name : String) :
    Except PyErr WmiState := do
  let _wt_snapshot ← index0 (st.snapshots.filter (fun s => s.description == snapshot_name))
  pure { st with snapshots := removeFirst (fun s => s.description == snapshot_name) st.snapshots }

/-- Model of the management interface's `WT_Host.NewHost(HostName=...)` call
(external to the driver): creating a target that already exists fails with a
COM error whose `excepinfo[2]` text contains "The file exists". -/
def newHost (st : WmiState) (target_name : String) : Except String WmiState :=
  if st.hosts.any (fun h => h.hostName == target_name) then
    .error "The file exists."
  else
    .ok { st with
      hosts := st.hosts ++ [{ hostName := target_name, targetIQN := target_name, disks := [] }] }

/-- The `try/except` logic of `WindowsCommon.create_iscsi_target`, applied to
the outcome of the `NewHost` call: on failure, re-raise unless `ensure` is set
and `excep_info.find(u'The file exists')` is not `-1`. -/
def create_iscsi_target_core (result : Except String Unit) (ensure : Bool) :
    Except PyErr Unit :=
  match result with
  | .ok _ => .ok ()
  | .error excep_info =>
    if !ensure || !(containsSub excep_info "The file exists") then
      .error (.comError excep_info)
    else
      .ok ()

/-- `WindowsCommon.create_iscsi_target` over the WMI state: run `NewHost` and
apply the `ensure` error-swallowing policy to its outcome. -/
def create_iscsi_target (st : WmiState) (target_name : String) (ensure : Bool) :
    Except PyErr WmiState :=
  match newHost st target_name with
  | .ok st1 => .ok st1
  | .error excep_info =>
    (create_iscsi_target_core (.error excep_info) ensure).map (fun _ => st)

/-- `WindowsCommon.add_disk_to_target`: a zero-length disk lookup is a logged
no-op (`return None`); otherwise the disk handle is added to the target. -/
def add_disk_to_target (st : WmiState) (vol_name target_name : String) :
    Except PyErr WmiState :=
  match st.disks.filter (fun d => d.description == vol_name) with
  | [] => .ok st
  | wt_disk :: _ => do
    let _wt_host ← index0 (st.hosts.filter (fun h => h.hostName == target_name))
    pure { st with
      hosts := mapFirst (fun h => h.hostName == target_name)
        (fun h => { h with disks := h.disks ++ [wt_disk.wtd] }) st.hosts }

/-- A call to the `WT_Disk.Extend` WMI method, as recorded in a trace. -/
structure ExtendCall where
  wtd : Nat
  additional_size : Int
deriving DecidableEq

/-- Outcome of the `WT_Disk.Extend` WMI method, supplied by the environment. -/
structure ExtendEnv where
  extendOutcome : Except PyErr Unit

/-- `WindowsCommon.extend`: a zero-length disk lookup is a logged no-op
(`return None`); otherwise `wt_disk.Extend(additional_size)` is invoked.  The
result is paired with the trace of `Extend` calls performed. -/
def extend (env : ExtendEnv) (st : WmiState) (vol_name : String)
    (additional_size : Int) : Except PyErr WmiState × List ExtendCall :=
  match st.disks.filter (fun d => d.description == vol_name) with
  | [] => (.ok st, [])
  | wt_disk :: _ =>
    match env.extendOutcome with
    | .ok _ => (.ok st, [{ wtd := wt_disk.wtd, additional_size := additional_size }])
    | .error e => (.error e, [{ wtd := wt_disk.wtd, additional_size := additional_size }])

/-- Connection-info payload returned by `WindowsDriver.initialize_connection`. -/
structure ConnInfo where
  driver_volume_type : String
  data : Option HostProps
deriving DecidableEq

/-- `WindowsDriver.initialize_connection`: binds the connector's initiator to
the volume's stored target, then wraps `get_host_information`.  The source
passes `(target_name, initiator_name)` positionally into
`associate_initiator_with_iscsi_target(self, initiator_name, target_name)`. -/
def initialize_connection (st : WmiState) (volume : Volume) (connector : Connector) :
    Except PyErr (WmiState × ConnInfo) := do
  let initiator_name := connector.initiator
  let target_name := volume.provider_location
  let st1 := associate_initiator_with_iscsi_target st target_name initiator_name
  let properties ← get_host_information st1 volume target_name
  pure (st1, { driver_volume_type := "iscsi", data := properties })

/-- `WindowsDriver.terminate_connection`: passes
`(initiator_name, target_name)` into `delete_iscsi_target`. -/
def terminate_connection (st : WmiState) (volume : Volume) (connector : Connector) :
    Except PyErr WmiState :=
  delete_iscsi_target st connector.initiator volume.provider_location

/-- `WindowsDriver.local_path`: `os.path.join(CONF.windows_iscsi_lun_path,
str(volume['name']) + ".vhd")`.  The `makedirs` side effect does not affect
the returned string. -/
def local_path (base_vhd_folder : String) (volume : Volume) : String :=
  pyPathJoin base_vhd_folder (volume.name ++ ".vhd")

/-- `WindowsDriver._do_export`: derive the target name from the configured
prefix, create the target (honouring `ensure`), attach the disk, and return
the target name. -/
def do_export (st : WmiState) (pfx : String) (volume : Volume) (ensure : Bool) :
    Except PyErr (WmiState × String) := do
  let target_name := pfx ++ volume.name
  let st1 ← create_iscsi_target st target_name ensure
  let st2 ← add_disk_to_target st1 volume.name target_name
  pure (st2, target_name)

/-- The `{'provider_location': loc}` dict returned by `create_export`. -/
structure ExportInfo where
  provider_location : String
deriving DecidableEq

/-- `WindowsDriver.create_export`: `_do_export` with `ensure=False`, wrapping
the returned location. -/
def create_export (st : WmiState) (pfx : String) (volume : Volume) :
    Except PyErr (WmiState × ExportInfo) := do
  let (st1, loc) ← do_export st pfx volume false
  pure (st1, { provider_location := loc })

/-- `WindowsDriver.ensure_export`: `_do_export` with `ensure=True`, return
value discarded. -/
def ensure_export (st : WmiState) (pfx : String) (volume : Volume) :
    Except PyErr WmiState := do
  let (st1, _) ← do_export st pfx volume true
  pure st1

/-- `WindowsDriver.extend_volume`: computes `(new_size - old_size) * 1024` and
calls `common.extend`; any exception is re-raised as
`VolumeBackendAPIException` whose message carries the volume name. -/
def extend_volume (env : ExtendEnv) (st : WmiState) (volume : Volume)
    (new_size : Int) : Except PyErr WmiState × List ExtendCall :=
  let old_size := volume.size
  let additional_size := (new_size - old_size) * 1024
  match extend env st volume.name additional_size with
  | (.ok st1, tr) => (.ok st1, tr)
  | (.error _, tr) =>
    (.error (.volumeBackendAPIException ("Failed to Extend Volume " ++ volume.name)), tr)

/-- Parsed output of `qemu-img info` (`image_utils.QemuImgInfo`): the probed
format and the declared backing file, either possibly absent. -/
structure QemuImgInfo where
  file_format : Option String
  backing_file : Option String
deriving DecidableEq

/-- Python rendering of an optional string under `%s` formatting. -/
def optStr : Option String → String
  | none => "None"
  | some s => s

/-- Environment for `fetch_to_vhd`: what `qemu-img info` reports on the
fetched temporary file, what it reports on the destination after
`convert_image` or after `copy_vhd_disk`, and whether the CIM copy found its
source (a zero-result `CIM_DataFile` lookup makes `copy_vhd_disk` a silent
no-op, leaving the destination uncreated). -/
structure FetchEnv where
  tmpInfo : QemuImgInfo
  convertDestInfo : QemuImgInfo
  copyDestInfo : QemuImgInfo
  copyCreatesDest : Bool

/-- The probe of the destination that `fetch_to_vhd` performs after its
convert-or-copy step: `convert_image` when `'vpc' not in fmt`, else
`copy_vhd_disk`. -/
def fetchDestProbe (env : FetchEnv) : QemuImgInfo :=
  match env.tmpInfo.file_format with
  | none => { file_format := none, backing_file := none }
  | some fmt =>
    if !(containsSub fmt "vpc") then env.convertDestInfo else env.copyDestInfo

/-- `WindowsCommon.fetch_to_vhd`: fetch to a temporary file, probe it, reject
an undeterminable format or a declared backing file, convert (or CIM-copy)
to the destination, re-probe the destination and reject anything that is not
`vpc`.  The second component records whether a destination file was
created. -/
def fetch_to_vhd (env : FetchEnv) (image_id : String) :
    Except PyErr Unit × Bool :=
  match env.tmpInfo.file_format with
  | none =>
    (.error (.imageUnacceptable image_id "qemu-img info parsing failed."), false)
  | some fmt =>
    match env.tmpInfo.backing_file with
    | some backing_file =>
      (.error (.imageUnacceptable image_id
        ("fmt=" ++ fmt ++ " backed by:" ++ backing_file)), false)
    | none =>
      let destInfo :=
        if !(containsSub fmt "vpc") then env.convertDestInfo else env.copyDestInfo
      let destCreated :=
        if !(containsSub fmt "vpc") then true else env.copyCreatesDest
      if destInfo.file_format == some "vpc" then
        (.ok (), destCreated)
      else
        (.error (.imageUnacceptable image_id
          ("Converted to vhd, but format is now " ++ optStr destInfo.file_format)),
         destCreated)

/-- Orchestrator image metadata as used by `upload_volume`. -/
structure ImageMeta where
  id : String
  disk_format : String
deriving DecidableEq

/-- Environment for `upload_volume`: the name `tempfile.mkstemp` hands out,
whether the CIM copy of the volume file finds its source, and the outcomes of
the conversion, the `qemu-img info` probe and the image-service upload. -/
structure UploadEnv where
  conversion_dir : String
  tmpName : String
  volumeSrcFound : Bool
  convertOutcome : Except PyErr Unit
  probeFormat : Option String
  uploadOutcome : Except PyErr Unit

/-- The image-id-derived scratch path `upload_volume` copies the volume to:
`os.path.join(CONF.image_conversion_dir, str(image_meta['id']) + ".vhd")`. -/
def tempVhdPath (env : UploadEnv) (image_meta : ImageMeta) : String :=
  pyPathJoin env.conversion_dir (image_meta.id ++ ".vhd")

/-- `WindowsCommon.upload_volume`: stream directly when the requested format
is already `vhd`; otherwise CIM-copy the volume into the conversion directory
under an image-id-derived name, `mkstemp` a second temporary file, convert,
re-probe, upload, and `os.unlink` the `mkstemp` file
(`fileutils.remove_path_on_error` unlinks it on every failure inside the
`with` block).  The second component is the list of files created in the
conversion directory that still exist on exit. -/
def upload_volume (env : UploadEnv) (image_meta : ImageMeta)
    (_volume_path : String) : Except PyErr Unit × List String :=
  if image_meta.disk_format == "vhd" then
    (env.uploadOutcome, [])
  else
    let temp_vhd_path := tempVhdPath env image_meta
    let copied := if env.volumeSrcFound then [temp_vhd_path] else []
    let created := copied ++ [env.tmpName]
    let result : Except PyErr Unit :=
      match env.convertOutcome with
      | .error e => .error e
      | .ok _ =>
        if env.probeFormat != some image_meta.disk_format then
          .error (.imageUnacceptable image_meta.id
            ("Converted to " ++ image_meta.disk_format ++ ", but format is now " ++
              optStr env.probeFormat))
        else
          match env.uploadOutcome with
          | .error e => .error e
          | .ok _ => .ok ()
    (result, removeFirst (fun f => f == env.tmpName) created)

/-! ## Concrete scenarios -/

/-- A WMI state with the singleton portal and one exported target. -/
def stA : WmiState :=
  { portals := [{ address := "127.0.0.1", port := 3260, listen := true }]
    hosts := [{ hostName := "iqn.2012.tgt-vol1", targetIQN := "iqn.2012.tgt-vol1", disks := [] }]
    disks := []
    snapshots := []
    idMethods := []
    files := []
    nextSnapshotId := 0 }

/-- A volume whose export target is stored in `provider_location`. -/
def volA : Volume :=
  { name := "vol1"
    id := "vol-id-1"
    size := 1
    provider_location := "iqn.2012.tgt-vol1"
    provider_auth := none }

/-- The same volume carrying a three-field auth string. -/
def volAuth : Volume := { volA with provider_auth := some "CHAP user secret" }

/-- A second volume record sharing `volA`'s name. -/
def volB : Volume :=
  { name := "vol1"
    id := "vol-id-2"
    size := 2
    provider_location := "elsewhere"
    provider_auth := some "CHAP u s" }

/-- An attaching host's connector. -/
def connA : Connector := { initiator := "iqn.1991-05.initiator-host" }

/-- `stA` extended with one disk object described as "vol1". -/
def stDisk : WmiState :=
  { stA with disks := [{ wtd := 7, description := "vol1", devicePath := "p" }] }

/-! ## Helper lemmas -/

theorem hasPre_self (l : List Char) : hasPre l l = true := by
  induction l with
  | nil => rfl
  | cons c cs ih => simp [hasPre, ih]

theorem containsSubL_cons (c : Char) (rest pat : List Char) :
    containsSubL (c :: rest) pat = (hasPre (c :: rest) pat || containsSubL rest pat) := by
  conv_lhs => unfold containsSubL

theorem containsSubL_append_self (l pat : List Char) :
    containsSubL (l ++ pat) pat = true := by
  induction l with
  | nil =>
    unfold containsSubL
    simp [hasPre_self]
  | cons c cs ih =>
    rw [List.cons_append, containsSubL_cons, ih]
    simp

theorem containsSub_append_self (s pat : String) :
    containsSub (s ++ pat) pat = true := by
  unfold containsSub
  rw [String.data_append]
  exact containsSubL_append_self s.data pat.data

theorem ok_bind (a : α) (f : α → Except PyErr β) :
    (Except.ok a >>= f) = f a := rfl

theorem error_bind (e : PyErr) (f : α → Except PyErr β) :
    ((Except.error e : Except PyErr α) >>= f) = Except.error e := rfl

theorem removeFirst_append_none (p : α → Bool) (l1 l2 : List α)
    (h : ∀ a ∈ l1, p a = false) :
    removeFirst p (l1 ++ l2) = l1 ++ removeFirst p l2 := by
  induction l1 with
  | nil => simp
  | cons a as ih =>
    rw [List.cons_append]
    show (if p a = true then as ++ l2 else a :: removeFirst p (as ++ l2)) =
      (a :: as) ++ removeFirst p l2
    simp [h a (List.mem_cons_self a as),
      ih (fun x hx => h x (List.mem_cons_of_mem a hx))]

theorem mapFirst_append_none (p : α → Bool) (f : α → α) (l1 l2 : List α)
    (h : ∀ a ∈ l1, p a = false) :
    mapFirst p f (l1 ++ l2) = l1 ++ mapFirst p f l2 := by
  induction l1 with
  | nil => simp
  | cons a as ih =>
    rw [List.cons_append]
    show (if p a = true then f a :: (as ++ l2) else a :: mapFirst p f (as ++ l2)) =
      (a :: as) ++ mapFirst p f l2
    simp [h a (List.mem_cons_self a as),
      ih (fun x hx => h x (List.mem_cons_of_mem a hx))]

end Windows

namespace Windows

/-! ## Claims -/

/-- C1: `initialize_connection` is claimed to create an identification-method
entry with `HostName` = the volume's target name and `Value` = the connector's
initiator, and `terminate_connection` to delete exactly that entry.  The code
instead passes `(target_name, initiator_name)` into a method whose parameters
are `(initiator_name, target_name)`, so the created entry has `HostName` = the
initiator and `Value` = the target — and the subsequent `terminate_connection`
lookup by the correct pair finds nothing and raises `IndexError`. -/
theorem initialize_then_terminate_entry_mismatch :
    (initialize_connection stA volA connA).map (fun r => r.1.idMethods) =
      .ok [{ hostName := "iqn.1991-05.initiator-host", method := 4,
             value := "iqn.2012.tgt-vol1" }] ∧
    (initialize_connection stA volA connA).bind
      (fun r => terminate_connection r.1 volA connA) = .error .indexError := by
  decide

/-- C2: `initialize_connection` is claimed to return
`{driver_volume_type: "iscsi", data: properties}` with the populated
properties mapping.  `get_host_information` builds the mapping but never
returns it (missing `return` statement), so the payload's `data` is `None`
both without and with a stored auth string. -/
theorem initialize_connection_payload_data_is_none :
    (initialize_connection stA volA connA).map (fun r => r.2) =
      .ok { driver_volume_type := "iscsi", data := none } ∧
    (initialize_connection stA volAuth connA).map (fun r => r.2) =
      .ok { driver_volume_type := "iscsi", data := none } := by
  decide

/-- C3: with `ensure=true`, a creation failure whose text contains
"The file exists" is swallowed; with `ensure=false` the same failure
propagates; a failure whose text lacks that indication propagates for either
value of `ensure`. -/
theorem create_iscsi_target_ensure_policy (excep_info : String) :
    (containsSub excep_info "The file exists" = true →
      create_iscsi_target_core (.error excep_info) true = .ok ()) ∧
    create_iscsi_target_core (.error excep_info) false =
      .error (.comError excep_info) ∧
    (containsSub excep_info "The file exists" = false →
      ∀ ensure, create_iscsi_target_core (.error excep_info) ensure =
        .error (.comError excep_info)) := by
  refine ⟨fun h => ?_, ?_, fun h ensure => ?_⟩
  · simp [create_iscsi_target_core, h]
  · simp [create_iscsi_target_core]
  · simp [create_iscsi_target_core, h]

/-- Witness for C3 at concrete failure texts. -/
theorem create_iscsi_target_ensure_policy_witness :
    create_iscsi_target_core (.error "Error: The file exists.") true = .ok () ∧
    create_iscsi_target_core (.error "Access denied") false =
      .error (.comError "Access denied") ∧
    create_iscsi_target_core (.error "Access denied") true =
      .error (.comError "Access denied") :=
  ⟨(create_iscsi_target_ensure_policy "Error: The file exists.").1 (by decide),
   (create_iscsi_target_ensure_policy "Access denied").2.1,
   (create_iscsi_target_ensure_policy "Access denied").2.2 (by decide) true⟩

/-- C6: `local_path` is a pure function of the configured root and the volume
name: two volume records with the same name map to the same path, and the
path is the deterministic join `<root>\<name>.vhd`. -/
theorem local_path_deterministic_join (root : String) (v w : Volume)
    (h : v.name = w.name) :
    local_path root v = local_path root w ∧
    local_path "C:\\iSCSIVirtualDisks" v =
      "C:\\iSCSIVirtualDisks" ++ "\\" ++ (v.name ++ ".vhd") := by
  constructor
  · simp [local_path, h]
  · rfl

/-- C4: `delete_volume` succeeds when a disk object with the matching
description exists even though the backing file is absent (the zero-length
file lookup is nothing-to-delete), and raises `IndexError` (ObjectNotFound)
when no disk object matches. -/
theorem delete_volume_tolerates_missing_file_not_missing_disk (st : WmiState)
    (vol_name vhd_path : String) :
    (st.disks.filter (fun d => d.description == vol_name) ≠ [] →
      vhd_path ∉ st.files →
      delete_volume st vol_name vhd_path =
        .ok { st with
          disks := removeFirst (fun d => d.description == vol_name) st.disks }) ∧
    (st.disks.filter (fun d => d.description == vol_name) = [] →
      delete_volume st vol_name vhd_path = .error .indexError) := by
  constructor
  · intro hne hf
    obtain ⟨d, ds, hd⟩ := List.exists_cons_of_ne_nil hne
    have hfil : st.files.filter (fun f => f == vhd_path) = [] := by
      rw [List.filter_eq_nil_iff]
      intro a ha
      simp only [beq_iff_eq]
      exact fun e => hf (e ▸ ha)
    simp [delete_volume, hd, index0, hfil]
  · intro h
    simp only [delete_volume, h, index0]
    rfl

/-- Witness for C4: a state holding the disk but not the file, and the same
state without the disk. -/
theorem delete_volume_tolerates_missing_file_witness :
    delete_volume
        { stA with disks := [{ wtd := 7, description := "vol1",
                               devicePath := "C:\\iSCSIVirtualDisks\\vol1.vhd" }] }
        "vol1" "C:\\iSCSIVirtualDisks\\vol1.vhd" =
      .ok { stA with disks := [] } ∧
    delete_volume stA "vol1" "C:\\iSCSIVirtualDisks\\vol1.vhd" =
      .error .indexError := by
  constructor
  · exact (delete_volume_tolerates_missing_file_not_missing_disk
      { stA with disks := [{ wtd := 7, description := "vol1",
                             devicePath := "C:\\iSCSIVirtualDisks\\vol1.vhd" }] }
      "vol1" "C:\\iSCSIVirtualDisks\\vol1.vhd").1 (by decide) (by decide)
  · exact (delete_volume_tolerates_missing_file_not_missing_disk
      stA "vol1" "C:\\iSCSIVirtualDisks\\vol1.vhd").2 (by decide)

/-- C5: `fetch_to_vhd` rejects an image declaring a backing file with
`ImageUnacceptable` before any destination file is created, and whenever it
returns successfully the destination's re-probed format is `vpc`. -/
theorem fetch_to_vhd_backing_rejected_and_result_vpc (env : FetchEnv)
    (image_id : String) :
    (∀ fmt bf, env.tmpInfo.file_format = some fmt →
      env.tmpInfo.backing_file = some bf →
      fetch_to_vhd env image_id =
        (.error (.imageUnacceptable image_id ("fmt=" ++ fmt ++ " backed by:" ++ bf)),
         false)) ∧
    ((fetch_to_vhd env image_id).1 = .ok () →
      (fetchDestProbe env).file_format = some "vpc") := by
  constructor
  · intro fmt bf h1 h2
    simp [fetch_to_vhd, h1, h2]
  · intro h
    unfold fetch_to_vhd at h
    unfold fetchDestProbe
    cases hf : env.tmpInfo.file_format with
    | none => rw [hf] at h; simp at h
    | some fmt =>
      rw [hf] at h
      cases hb : env.tmpInfo.backing_file with
      | some bf => rw [hb] at h; simp at h
      | none =>
        rw [hb] at h
        cases hvf : ((if !(containsSub fmt "vpc") then env.convertDestInfo
            else env.copyDestInfo).file_format == some "vpc") with
        | true => exact beq_iff_eq.mp hvf
        | false =>
          simp only [hvf] at h
          simp at h

/-- Witness for C5: a backed image is rejected with no destination created,
and a flat `vpc` image round-trips to a `vpc` destination. -/
theorem fetch_to_vhd_backing_rejected_witness :
    fetch_to_vhd
        { tmpInfo := { file_format := some "qcow2", backing_file := some "base.img" }
          convertDestInfo := { file_format := some "vpc", backing_file := none }
          copyDestInfo := { file_format := some "vpc", backing_file := none }
          copyCreatesDest := true } "img1" =
      (.error (.imageUnacceptable "img1" ("fmt=" ++ "qcow2" ++ " backed by:" ++ "base.img")),
       false) ∧
    (fetchDestProbe
        { tmpInfo := { file_format := some "vpc", backing_file := none }
          convertDestInfo := { file_format := some "raw", backing_file := none }
          copyDestInfo := { file_format := some "vpc", backing_file := none }
          copyCreatesDest := true }).file_format = some "vpc" := by
  constructor
  · exact (fetch_to_vhd_backing_rejected_and_result_vpc
      { tmpInfo := { file_format := some "qcow2", backing_file := some "base.img" }
        convertDestInfo := { file_format := some "vpc", backing_file := none }
        copyDestInfo := { file_format := some "vpc", backing_file := none }
        copyCreatesDest := true } "img1").1 "qcow2" "base.img" rfl rfl
  · exact (fetch_to_vhd_backing_rejected_and_result_vpc
      { tmpInfo := { file_format := some "vpc", backing_file := none }
        convertDestInfo := { file_format := some "raw", backing_file := none }
        copyDestInfo := { file_format := some "vpc", backing_file := none }
        copyCreatesDest := true } "img1").2 (by decide)

/-- C7: every `WT_Disk.Extend` call made by `extend_volume` receives exactly
`(new_size - old_size) * 1024` MiB, and any failure of the extend step
surfaces as a `VolumeBackendAPIException` whose message carries the volume
name. -/
theorem extend_volume_delta_and_wrapped_error (env : ExtendEnv) (st : WmiState)
    (volume : Volume) (new_size : Int) :
    (∀ c ∈ (extend_volume env st volume new_size).2,
      c.additional_size = (new_size - volume.size) * 1024) ∧
    (∀ e, (extend_volume env st volume new_size).1 = .error e →
      e = .volumeBackendAPIException ("Failed to Extend Volume " ++ volume.name) ∧
      containsSub ("Failed to Extend Volume " ++ volume.name) volume.name = true) := by
  have hmsg : containsSub ("Failed to Extend Volume " ++ volume.name) volume.name = true :=
    containsSub_append_self "Failed to Extend Volume " volume.name
  unfold extend_volume extend
  cases hq : st.disks.filter (fun d => d.description == volume.name) with
  | nil =>
    refine ⟨by simp, fun e he => ?_⟩
    simp at he
  | cons wt_disk rest =>
    cases ho : env.extendOutcome with
    | ok u =>
      refine ⟨?_, fun e he => ?_⟩
      · intro c hc
        simp at hc
        simp [hc]
      · simp at he
    | error err =>
      refine ⟨?_, fun e he => ?_⟩
      · intro c hc
        simp at hc
        simp [hc]
      · simp at he
        exact ⟨he.symm, hmsg⟩

/-- Witness for C7: extending "vol1" from 1 GB to 3 GB passes 2048 MiB, and a
failing extend surfaces the wrapped backend-API error. -/
theorem extend_volume_delta_witness :
    ({ wtd := 7, additional_size := 2048 } : ExtendCall).additional_size =
      ((3 : Int) - volA.size) * 1024 ∧
    ((.volumeBackendAPIException ("Failed to Extend Volume " ++ volA.name) : PyErr) =
        .volumeBackendAPIException ("Failed to Extend Volume " ++ volA.name) ∧
      containsSub ("Failed to Extend Volume " ++ volA.name) volA.name = true) := by
  constructor
  · exact (extend_volume_delta_and_wrapped_error
      { extendOutcome := .error .indexError }
      { stA with disks := [{ wtd := 7, description := "vol1", devicePath := "p" }] }
      volA 3).1 { wtd := 7, additional_size := 2048 } (by decide)
  · exact (extend_volume_delta_and_wrapped_error
      { extendOutcome := .error .indexError }
      { stA with disks := [{ wtd := 7, description := "vol1", devicePath := "p" }] }
      volA 3).2 (.volumeBackendAPIException ("Failed to Extend Volume " ++ volA.name))
      (by decide)

/-- C8: `create_snapshot` looks up the source disk by description, creates
the snapshot against the disk's internal handle, then re-reads the new
snapshot by the returned id and re-tags it with the snapshot name; a
subsequent `delete_snapshot` finds the object by that description and
deletes exactly it. -/
theorem create_then_delete_snapshot_sequence (st : WmiState)
    (vol_name snapshot_name : String) (d : WTDisk) (ds : List WTDisk)
    (hd : st.disks.filter (fun x => x.description == vol_name) = d :: ds)
    (hid : ∀ s ∈ st.snapshots, s.id ≠ st.nextSnapshotId)
    (hdesc : ∀ s ∈ st.snapshots, s.description ≠ snapshot_name) :
    create_snapshot st vol_name snapshot_name =
      .ok { st with
        snapshots := st.snapshots ++
          [{ id := st.nextSnapshotId, description := snapshot_name, wtd := d.wtd }]
        nextSnapshotId := st.nextSnapshotId + 1 } ∧
    delete_snapshot
        { st with
          snapshots := st.snapshots ++
            [{ id := st.nextSnapshotId, description := snapshot_name, wtd := d.wtd }]
          nextSnapshotId := st.nextSnapshotId + 1 } snapshot_name =
      .ok { st with nextSnapshotId := st.nextSnapshotId + 1 } := by
  have hidb : ∀ s ∈ st.snapshots, (s.id == st.nextSnapshotId) = false :=
    fun s hs => beq_eq_false_iff_ne.mpr (hid s hs)
  have hdescb : ∀ s ∈ st.snapshots, (s.description == snapshot_name) = false :=
    fun s hs => beq_eq_false_iff_ne.mpr (hdesc s hs)
  have hfid : st.snapshots.filter (fun s => s.id == st.nextSnapshotId) = [] :=
    List.filter_eq_nil_iff.mpr (fun a ha => by simp [hidb a ha])
  have hfdesc : st.snapshots.filter (fun s => s.description == snapshot_name) = [] :=
    List.filter_eq_nil_iff.mpr (fun a ha => by simp [hdescb a ha])
  refine ⟨?_, ?_⟩
  · simp only [create_snapshot, wtSnapshotCreate, hd, index0, ok_bind]
    rw [List.filter_append, hfid, List.nil_append]
    simp only [List.filter_cons, List.filter_nil, beq_self_eq_true, if_true, index0, ok_bind]
    rw [mapFirst_append_none _ _ _ _ hidb]
    simp only [mapFirst, beq_self_eq_true, if_true]
    rfl
  · simp only [delete_snapshot]
    rw [List.filter_append, hfdesc, List.nil_append]
    simp only [List.filter_cons, List.filter_nil, beq_self_eq_true, if_true, index0, ok_bind]
    rw [removeFirst_append_none _ _ _ hdescb]
    simp only [removeFirst, beq_self_eq_true, if_true, List.append_nil]
    rfl

/-- Witness for C8: one disk named "vol1", snapshot "snap1", empty snapshot
store. -/
theorem create_then_delete_snapshot_witness :
    create_snapshot stDisk "vol1" "snap1" =
      .ok { stDisk with
        snapshots := stDisk.snapshots ++
          [{ id := stDisk.nextSnapshotId, description := "snap1", wtd := (7 : Nat) }]
        nextSnapshotId := stDisk.nextSnapshotId + 1 } ∧
    delete_snapshot
        { stDisk with
          snapshots := stDisk.snapshots ++
            [{ id := stDisk.nextSnapshotId, description := "snap1", wtd := (7 : Nat) }]
          nextSnapshotId := stDisk.nextSnapshotId + 1 } "snap1" =
      .ok { stDisk with nextSnapshotId := stDisk.nextSnapshotId + 1 } :=
  create_then_delete_snapshot_sequence stDisk "vol1" "snap1"
    { wtd := 7, description := "vol1", devicePath := "p" } [] (by decide)
    (by decide) (by decide)

/-- C9 counterexample: a successful non-vhd `upload_volume` run leaves the
image-id-derived scratch copy in the conversion directory, so the claim that
every temporary file it created there is removed on every exit path is false
at this input. -/
theorem upload_volume_leaves_scratch_copy :
    upload_volume
        { conversion_dir := "C:\\conv", tmpName := "C:\\conv\\tmpabc123",
          volumeSrcFound := true, convertOutcome := .ok (),
          probeFormat := some "qcow2", uploadOutcome := .ok () }
        { id := "img1", disk_format := "qcow2" } "C:\\iSCSIVirtualDisks\\vol1.vhd" =
      (.ok (), ["C:\\conv\\img1.vhd"]) ∧
    ["C:\\conv\\img1.vhd"] ≠ ([] : List String) := by
  constructor
  · decide
  · decide

/-- C9 amended: the `mkstemp` temporary file is removed on every exit path of
`upload_volume`, and the only file it can leave behind in the conversion
directory is the image-id-derived scratch copy. -/
theorem upload_volume_mkstemp_always_removed (env : UploadEnv)
    (image_meta : ImageMeta) (volume_path : String)
    (h : env.tmpName ≠ tempVhdPath env image_meta) :
    env.tmpName ∉ (upload_volume env image_meta volume_path).2 ∧
    ∀ f ∈ (upload_volume env image_meta volume_path).2,
      f = tempVhdPath env image_meta := by
  have hb : (tempVhdPath env image_meta == env.tmpName) = false :=
    beq_eq_false_iff_ne.mpr (fun e => h e.symm)
  unfold upload_volume
  cases hvhd : (image_meta.disk_format == "vhd") with
  | true => simp
  | false =>
    simp only [Bool.false_eq_true, if_false]
    cases hsrc : env.volumeSrcFound with
    | true =>
      simp only [hsrc, if_true, List.cons_append, List.nil_append]
      simp only [removeFirst, hb, Bool.false_eq_true, if_false, beq_self_eq_true, if_true]
      refine ⟨?_, by simp⟩
      simp only [List.mem_singleton]
      exact fun e => h e
    | false =>
      simp only [hsrc, Bool.false_eq_true, if_false, List.nil_append]
      simp [removeFirst]

/-- Witness for C9's amended theorem at a concrete failing conversion. -/
theorem upload_volume_mkstemp_always_removed_witness :
    "C:\\conv\\tmpabc123" ∉
      (upload_volume
        { conversion_dir := "C:\\conv", tmpName := "C:\\conv\\tmpabc123",
          volumeSrcFound := true, convertOutcome := .error .indexError,
          probeFormat := none, uploadOutcome := .ok () }
        { id := "img1", disk_format := "qcow2" } "C:\\x\\v.vhd").2 ∧
    ∀ f ∈ (upload_volume
        { conversion_dir := "C:\\conv", tmpName := "C:\\conv\\tmpabc123",
          volumeSrcFound := true, convertOutcome := .error .indexError,
          probeFormat := none, uploadOutcome := .ok () }
        { id := "img1", disk_format := "qcow2" } "C:\\x\\v.vhd").2,
      f = tempVhdPath
        { conversion_dir := "C:\\conv", tmpName := "C:\\conv\\tmpabc123",
          volumeSrcFound := true, convertOutcome := .error .indexError,
          probeFormat := none, uploadOutcome := .ok () }
        { id := "img1", disk_format := "qcow2" } :=
  upload_volume_mkstemp_always_removed
    { conversion_dir := "C:\\conv", tmpName := "C:\\conv\\tmpabc123",
      volumeSrcFound := true, convertOutcome := .error .indexError,
      probeFormat := none, uploadOutcome := .ok () }
    { id := "img1", disk_format := "qcow2" } "C:\\x\\v.vhd" (by decide)

/-- C10: exporting a volume whose name matches no disk still succeeds:
`create_export` returns `{provider_location := pfx ++ name}` after the target
is created with no disk attached (the empty disk lookup is a silent no-op),
and a later `ensure_export` also succeeds, leaving the state unchanged. -/
theorem export_succeeds_without_disk (st : WmiState) (pfx : String)
    (volume : Volume)
    (hd : st.disks.filter (fun d => d.description == volume.name) = [])
    (hh : st.hosts.any (fun h => h.hostName == pfx ++ volume.name) = false) :
    create_export st pfx volume =
      .ok ({ st with
          hosts := st.hosts ++
            [{ hostName := pfx ++ volume.name, targetIQN := pfx ++ volume.name,
               disks := [] }] },
        { provider_location := pfx ++ volume.name }) ∧
    ensure_export
        { st with
          hosts := st.hosts ++
            [{ hostName := pfx ++ volume.name, targetIQN := pfx ++ volume.name,
               disks := [] }] } pfx volume =
      .ok { st with
        hosts := st.hosts ++
          [{ hostName := pfx ++ volume.name, targetIQN := pfx ++ volume.name,
             disks := [] }] } := by
  have hcont : containsSub "The file exists." "The file exists" = true := by decide
  refine ⟨?_, ?_⟩
  · simp only [create_export, do_export, create_iscsi_target, newHost, hh,
      Bool.false_eq_true, if_false, ok_bind, add_disk_to_target, hd]
    rfl
  · simp only [ensure_export, do_export, create_iscsi_target, newHost,
      List.any_append, hh, List.any_cons, List.any_nil, beq_self_eq_true,
      Bool.false_or, Bool.or_false, if_true, create_iscsi_target_core, hcont,
      Bool.not_true, Bool.false_or, Bool.false_eq_true, if_false, Except.map,
      ok_bind, add_disk_to_target, hd]
    rfl

/-- Witness for C10: `stA` holds no disks and no target named "iqn:vol1". -/
theorem export_succeeds_without_disk_witness :
    create_export stA "iqn:" volA =
      .ok ({ stA with
          hosts := stA.hosts ++
            [{ hostName := "iqn:" ++ volA.name, targetIQN := "iqn:" ++ volA.name,
               disks := [] }] },
        { provider_location := "iqn:" ++ volA.name }) ∧
    ensure_export
        { stA with
          hosts := stA.hosts ++
            [{ hostName := "iqn:" ++ volA.name, targetIQN := "iqn:" ++ volA.name,
               disks := [] }] } "iqn:" volA =
      .ok { stA with
        hosts := stA.hosts ++
          [{ hostName := "iqn:" ++ volA.name, targetIQN := "iqn:" ++ volA.name,
             disks := [] }] } :=
  export_succeeds_without_disk stA "iqn:" volA (by decide) (by decide)

/-- Witness for C6: two distinct volume records named "vol1". -/
theorem local_path_deterministic_join_witness :
    local_path "C:\\iSCSIVirtualDisks" volA = local_path "C:\\iSCSIVirtualDisks" volB ∧
    local_path "C:\\iSCSIVirtualDisks" volA =
      "C:\\iSCSIVirtualDisks" ++ "\\" ++ (volA.name ++ ".vhd") :=
  local_path_deterministic_join "C:\\iSCSIVirtualDisks" volA volB rfl

end Windows
